import Mathlib

/-!
Verification of the qwen-agent-scheduler invocation engine and metadata
validator.  The definitions below are a shallow embedding of
`agent-scheduler/src/executor.py` (class `MethodExecutor` and the
`timeout_context` manager), `shared/models.py` (the shared dataclasses), and
`method-registration/src/validator.py` (class `MetadataValidator`).

Modelling conventions:
- Python JSON-like runtime values are the inductive `Value`; Python's `None`
  is `Value.none` (so a parameter "default of None" is `Value.none`,
  mirroring the dataclass field `default: Any = None`).
- Python `float` is modelled with `Rat` (exact rationals); no claim below
  depends on floating-point rounding.
- Python dicts are association lists `List (String × Value)` looked up with
  `alookup` (first binding wins, as after Python dict insertion).
- Exceptions become `Except`/`Option` results; wall-clock time becomes an
  abstract `Nat` duration carried by the modelled callable, and the
  `signal.alarm` based `timeout_context` fires exactly when that duration
  exceeds a positive alarm value.
-/

/-- A Python runtime value as it crosses the executor boundary
(JSON-like: the argument maps, defaults and results in the source are
exactly these shapes). -/
inductive Value where
  | none
  | bool (b : Bool)
  | int (n : Int)
  | float (q : Rat)
  | str (s : String)
  | list (xs : List Value)
  | dict (kvs : List (String × Value))

/-- `v is None` in Python (used by `validate_params` and `_prepare_params`
for `param.default is None` checks). -/
def Value.isNone : Value → Bool
  | Value.none => true
  | _ => false

/-- Python truthiness `bool(value)`: `None`/`False`/`0`/`""`/empty
containers are falsy, everything else truthy. -/
def pyTruthy : Value → Bool
  | Value.none => false
  | Value.bool b => b
  | Value.int n => n != 0
  | Value.float q => q != 0
  | Value.str s => s != ""
  | Value.list xs => !xs.isEmpty
  | Value.dict kvs => !kvs.isEmpty

mutual

/-- Python `repr(value)` (strings quoted), used inside container reprs.
Float rendering is modelled through `Rat`'s decimal-free printer; no claim
touches float formatting. -/
def pyRepr : Value → String
  | Value.none => "None"
  | Value.bool b => if b then "True" else "False"
  | Value.int n => toString n
  | Value.float q => toString q
  | Value.str s => "'" ++ s ++ "'"
  | Value.list xs => "[" ++ pyReprList xs ++ "]"
  | Value.dict kvs => "\x7b" ++ pyReprPairs kvs ++ "\x7d"

/-- Comma-joined reprs of the elements of a Python list. -/
def pyReprList : List Value → String
  | [] => ""
  | [v] => pyRepr v
  | v :: rest => pyRepr v ++ ", " ++ pyReprList rest

/-- Comma-joined `'key': value` reprs of the entries of a Python dict. -/
def pyReprPairs : List (String × Value) → String
  | [] => ""
  | [(k, v)] => "'" ++ k ++ "': " ++ pyRepr v
  | (k, v) :: rest => "'" ++ k ++ "': " ++ pyRepr v ++ ", " ++ pyReprPairs rest

end

/-- Python `str(value)`: like `repr` except a top-level string is returned
unquoted. -/
def pyStr : Value → String
  | Value.str s => s
  | v => pyRepr v

/-- ASCII lower-casing of one character (Python `str.lower` over the ASCII
range the repository uses). -/
def pyLowerChar (c : Char) : Char :=
  if 65 ≤ c.toNat && c.toNat ≤ 90 then Char.ofNat (c.toNat + 32) else c

/-- Python `str.lower()`. -/
def pyLower (s : String) : String :=
  String.mk (s.toList.map pyLowerChar)

/-- The whitespace `str.strip()` removes (the forms appearing in this
repository's inputs). -/
def isPySpace (c : Char) : Bool :=
  c == ' ' || c == '\t' || c == '\n' || c == '\r'

/-- Python `str.strip()`. -/
def pyStrip (s : String) : String :=
  String.mk (((s.toList.dropWhile isPySpace).reverse.dropWhile isPySpace).reverse)

/-- Python `str.split('.')` (used by the validator's module-path check). -/
def splitDotGo : List Char → List Char → List String
  | [], acc => [String.mk acc.reverse]
  | '.' :: rest, acc => String.mk acc.reverse :: splitDotGo rest []
  | c :: rest, acc => splitDotGo rest (c :: acc)

/-- See `splitDotGo`. -/
def splitDot (s : String) : List String :=
  splitDotGo s.toList []

/-- Decimal digits to a natural number (helper for the `int()`/`float()`
string parsers). -/
def digitsToNat (cs : List Char) : Nat :=
  cs.foldl (fun acc c => acc * 10 + (c.toNat - 48)) 0

/-- Python `int(s)` on a string: surrounding whitespace stripped, an
optional sign, then a non-empty digit run.  (Python additionally accepts
underscore digit separators; that sugar is not exercised anywhere in the
repository and is elided.)  Returns `Option.none` where `int()` raises
`ValueError`. -/
def pyIntOfString (s : String) : Option Int :=
  let cs := (pyStrip s).toList
  let signed : Bool × List Char :=
    match cs with
    | '-' :: rest => (true, rest)
    | '+' :: rest => (false, rest)
    | _ => (false, cs)
  let (neg, digits) := signed
  if digits.isEmpty || !digits.all Char.isDigit then Option.none
  else
    let n : Int := Int.ofNat (digitsToNat digits)
    some (if neg then -n else n)

/-- Python `float(s)` on a string, modelled over `Rat`: optional sign,
digits, optional fractional part.  (Exponents and `inf`/`nan` are elided;
no claim exercises string-to-float parsing.)  Returns `Option.none` where
`float()` raises `ValueError`. -/
def pyFloatOfString (s : String) : Option Rat :=
  let cs := (pyStrip s).toList
  let signed : Bool × List Char :=
    match cs with
    | '-' :: rest => (true, rest)
    | '+' :: rest => (false, rest)
    | _ => (false, cs)
  let (neg, body) := signed
  let intPart := body.takeWhile Char.isDigit
  let rest := body.dropWhile Char.isDigit
  let parsed : Option Rat :=
    match rest with
    | [] => if intPart.isEmpty then Option.none else some ((digitsToNat intPart : Int) : Rat)
    | '.' :: frac =>
        if !frac.all Char.isDigit then Option.none
        else if intPart.isEmpty && frac.isEmpty then Option.none
        else
          some (((digitsToNat intPart : Int) : Rat) +
            ((digitsToNat frac : Int) : Rat) / ((10 ^ frac.length : Int) : Rat))
    | _ => Option.none
  parsed.map (fun q => if neg then -q else q)

/-- Skip JSON whitespace. -/
def jsonSkipWs (cs : List Char) : List Char :=
  cs.dropWhile (fun c => c = ' ' || c = '\t' || c = '\n' || c = '\r')

/-- Scan a JSON string body up to the closing quote (escape sequences
elided — no claim exercises structured-text parsing).  Returns the string
and the remainder after the closing quote. -/
def jsonScanString : List Char → Option (String × List Char)
  | [] => Option.none
  | c :: rest =>
      if c = '"' then some ("", rest)
      else (jsonScanString rest).map (fun p => (String.mk [c] ++ p.1, p.2))

mutual

/-- Fuel-bounded recursive-descent parser modelling Python's `json.loads`
value grammar (null, booleans, integers, simple decimals, strings without
escapes, arrays, objects).  `_convert_type` only consumes it for
string-to-dict/list coercion, which no claim exercises. -/
def jsonParse : Nat → List Char → Option (Value × List Char)
  | 0, _ => Option.none
  | _ + 1, cs₀ =>
    match jsonSkipWs cs₀ with
    | 'n' :: 'u' :: 'l' :: 'l' :: rest => some (Value.none, rest)
    | 't' :: 'r' :: 'u' :: 'e' :: rest => some (Value.bool true, rest)
    | 'f' :: 'a' :: 'l' :: 's' :: 'e' :: rest => some (Value.bool false, rest)
    | '"' :: rest => (jsonScanString rest).map (fun p => (Value.str p.1, p.2))
    | '[' :: rest =>
        (match jsonSkipWs rest with
         | ']' :: rest₂ => some (Value.list [], rest₂)
         | _ => (jsonParseItems 0 rest).map (fun p => (Value.list p.1, p.2)))
    | '{' :: rest =>
        (match jsonSkipWs rest with
         | '}' :: rest₂ => some (Value.dict [], rest₂)
         | _ => (jsonParseMembers 0 rest).map (fun p => (Value.dict p.1, p.2)))
    | cs =>
        let (neg, body) : Bool × List Char :=
          match cs with
          | '-' :: rest => (true, rest)
          | _ => (false, cs)
        let digits := body.takeWhile Char.isDigit
        let rest := body.dropWhile Char.isDigit
        if digits.isEmpty then Option.none
        else
          match rest with
          | '.' :: frac₀ =>
              let frac := frac₀.takeWhile Char.isDigit
              let rest₂ := frac₀.dropWhile Char.isDigit
              if frac.isEmpty then Option.none
              else
                let q : Rat := ((digitsToNat digits : Int) : Rat) +
                  ((digitsToNat frac : Int) : Rat) / ((10 ^ frac.length : Int) : Rat)
                some (Value.float (if neg then -q else q), rest₂)
          | _ =>
              let n : Int := Int.ofNat (digitsToNat digits)
              some (Value.int (if neg then -n else n), rest)

/-- Comma-separated JSON array items (fuel-bounded). -/
def jsonParseItems : Nat → List Char → Option (List Value × List Char)
  | 0, _ => Option.none
  | fuel + 1, cs =>
    match jsonParse fuel cs with
    | Option.none => Option.none
    | some (v, rest) =>
      match jsonSkipWs rest with
      | ',' :: rest₂ => (jsonParseItems fuel rest₂).map (fun p => (v :: p.1, p.2))
      | ']' :: rest₂ => some ([v], rest₂)
      | _ => Option.none

/-- Comma-separated JSON object members (fuel-bounded). -/
def jsonParseMembers : Nat → List Char → Option (List (String × Value) × List Char)
  | 0, _ => Option.none
  | fuel + 1, cs =>
    match jsonSkipWs cs with
    | '"' :: rest =>
      (match jsonScanString rest with
       | Option.none => Option.none
       | some (k, rest₂) =>
         match jsonSkipWs rest₂ with
         | ':' :: rest₃ =>
           (match jsonParse fuel rest₃ with
            | Option.none => Option.none
            | some (v, rest₄) =>
              match jsonSkipWs rest₄ with
              | ',' :: rest₅ => (jsonParseMembers fuel rest₅).map (fun p => ((k, v) :: p.1, p.2))
              | '}' :: rest₅ => some ([(k, v)], rest₅)
              | _ => Option.none)
         | _ => Option.none)
    | _ => Option.none

end

/-- Python `json.loads(s)`: parse one JSON value and require only
whitespace to follow; any leftover input or parse failure is the
`json.JSONDecodeError` case. -/
def jsonLoads (s : String) : Option Value :=
  match jsonParse (s.length + 1) s.toList with
  | some (v, rest) => if (jsonSkipWs rest).isEmpty then some v else Option.none
  | Option.none => Option.none

/-- The `type_checks` isinstance table of `MethodExecutor._convert_type`,
applied to a value and an already-lower-cased target type: `true` exactly
when `isinstance(value, type_checks[target_type])` holds.  Note Python's
`bool` is a subclass of `int`, so a boolean also matches the
`int`/`integer`/`number` rows. -/
def typeMatches : Value → String → Bool
  | Value.str _, t => t == "string" || t == "str"
  | Value.bool _, t =>
      t == "bool" || t == "boolean" || t == "int" || t == "integer" || t == "number"
  | Value.int _, t => t == "int" || t == "integer" || t == "number"
  | Value.float _, t => t == "float" || t == "number"
  | Value.dict _, t => t == "dict" || t == "object"
  | Value.list _, t => t == "list" || t == "array"
  | Value.none, _ => false

/-- The recognized boolean-word lists of `_convert_type`'s string branch. -/
def trueStrings : List String := ["true", "1", "yes"]

/-- See `trueStrings`. -/
def falseStrings : List String := ["false", "0", "no"]

/-- The `bool`/`boolean` branch of `_convert_type`: recognized words on a
lower-cased string, otherwise Python truthiness `bool(value)`.  This branch
never raises. -/
def convertBool (v : Value) : Value :=
  match v with
  | Value.str s =>
      if trueStrings.contains (pyLower s) then Value.bool true
      else if falseStrings.contains (pyLower s) then Value.bool false
      else Value.bool (pyTruthy v)
  | _ => Value.bool (pyTruthy v)

/-- Truncation toward zero, as Python `int(float)`. -/
def ratTrunc (q : Rat) : Int :=
  q.num / (q.den : Int)

/-- Python `int(value)` as used by `_convert_type`'s `int`/`integer`
branch; the error strings approximate CPython's messages (they are only
interpolated into the engine's `Cannot convert` wrapper). -/
def pyInt : Value → Except String Int
  | Value.str s =>
      match pyIntOfString s with
      | some n => Except.ok n
      | Option.none =>
          Except.error ("invalid literal for int() with base 10: '" ++ s ++ "'")
  | Value.int n => Except.ok n
  | Value.bool b => Except.ok (if b then 1 else 0)
  | Value.float q => Except.ok (ratTrunc q)
  | Value.none => Except.error "int() argument cannot be NoneType"
  | Value.list _ => Except.error "int() argument cannot be list"
  | Value.dict _ => Except.error "int() argument cannot be dict"

/-- Python `float(value)` for the `float`/`number` branch. -/
def pyFloat : Value → Except String Rat
  | Value.str s =>
      match pyFloatOfString s with
      | some q => Except.ok q
      | Option.none =>
          Except.error ("could not convert string to float: '" ++ s ++ "'")
  | Value.float q => Except.ok q
  | Value.int n => Except.ok (n : Rat)
  | Value.bool b => Except.ok (if b then 1 else 0)
  | Value.none => Except.error "float() argument cannot be NoneType"
  | Value.list _ => Except.error "float() argument cannot be list"
  | Value.dict _ => Except.error "float() argument cannot be dict"

/-- Python `dict(value)` for the non-string `dict`/`object` branch: a list
of two-element key/value pairs builds a dict, anything else raises. -/
def pyDictOf : Value → Except String (List (String × Value))
  | Value.dict kvs => Except.ok kvs
  | Value.list xs =>
      let pair : Value → Option (String × Value)
        | Value.list [Value.str k, v] => some (k, v)
        | _ => Option.none
      match xs.mapM pair with
      | some kvs => Except.ok kvs
      | Option.none => Except.error "cannot convert to dict"
  | _ => Except.error "cannot convert to dict"

/-- Python `list(value)` for the non-string `list`/`array` branch: a dict
iterates to its keys, anything non-iterable raises. -/
def pyListOf : Value → Except String (List Value)
  | Value.list xs => Except.ok xs
  | Value.dict kvs => Except.ok (kvs.map (fun kv => Value.str kv.1))
  | Value.str s => Except.ok (s.toList.map (fun c => Value.str (String.mk [c])))
  | _ => Except.error "object is not iterable"

/-- The wrapper message of `_convert_type`'s `except` clause:
`Cannot convert value '{value}' to type '{target_type}': {e}`. -/
def convErrMsg (v : Value) (t : String) (e : String) : String :=
  "Cannot convert value '" ++ pyStr v ++ "' to type '" ++ t ++ "': " ++ e

/-- `MethodExecutor._convert_type(value, target_type)`.  Mirrors the
source: lower-case the target, return the value unchanged when
`isinstance` already matches, otherwise run the conversion cascade, any
branch failure surfacing as the wrapped `ValueError` message; an unknown
target type passes the value through unchanged (warning only). -/
def convertType (v : Value) (targetType : String) : Except String Value :=
  let t := pyLower targetType
  if typeMatches v t then Except.ok v
  else if t == "string" || t == "str" then Except.ok (Value.str (pyStr v))
  else if t == "int" || t == "integer" then
    match pyInt v with
    | Except.ok n => Except.ok (Value.int n)
    | Except.error e => Except.error (convErrMsg v t e)
  else if t == "float" || t == "number" then
    match pyFloat v with
    | Except.ok q => Except.ok (Value.float q)
    | Except.error e => Except.error (convErrMsg v t e)
  else if t == "bool" || t == "boolean" then Except.ok (convertBool v)
  else if t == "dict" || t == "object" then
    match v with
    | Value.str s =>
        (match jsonLoads s with
         | some parsed => Except.ok parsed
         | Option.none => Except.error (convErrMsg v t "Expecting value"))
    | _ =>
        (match pyDictOf v with
         | Except.ok kvs => Except.ok (Value.dict kvs)
         | Except.error e => Except.error (convErrMsg v t e))
  else if t == "list" || t == "array" then
    match v with
    | Value.str s =>
        (match jsonLoads s with
         | some parsed => Except.ok parsed
         | Option.none => Except.error (convErrMsg v t "Expecting value"))
    | _ =>
        (match pyListOf v with
         | Except.ok xs => Except.ok (Value.list xs)
         | Except.error e => Except.error (convErrMsg v t e))
  else Except.ok v

/-- First-match association-list lookup: Python dict indexing / `in` on the
modelled dicts (keys are unique in any dict the source builds, and a cache
overwrite is modelled by consing the fresh binding in front). -/
def alookup {α : Type} : List (String × α) → String → Option α
  | [], _ => Option.none
  | (k, v) :: rest, key => if k == key then some v else alookup rest key

/-- `shared.models.MethodParameter`: one declared parameter.  `default` is
`Value.none` when the dataclass field holds Python `None` (its default),
which the executor reads as "no default". -/
structure MethodParameter where
  name : String
  type : String
  description : String
  required : Bool := true
  default : Value := Value.none

/-- `shared.models.MethodMetadata` as the executor consumes it.  The
`parameters_json` round-trip of the source (`json.dumps`/`json.loads` of
`MethodParameter.to_dict`) is elided: the `parameters` property's decoded
list is held directly. -/
structure MethodMetadata where
  name : String
  description : String
  parameters : List MethodParameter
  return_type : String
  module_path : String
  function_name : String

/-- `shared.models.ExecutionResult`: `result` is `some` exactly on the one
constructor call that passes `result=`, `error` is `some` exactly on the
ones that pass `error=` (the dataclass defaults are `None`).
`execution_time` is the abstract duration (see module docstring). -/
structure ExecutionResult where
  success : Bool
  result : Option Value := Option.none
  error : Option String := Option.none
  execution_time : Nat := 0

/-- The first loop of `MethodExecutor.validate_params`: scan the declared
parameters in order and report the first one that is required, absent from
the supplied arguments, and has a `None` default. -/
def firstMissingRequired : List MethodParameter → List (String × Value) → Option String
  | [], _ => Option.none
  | p :: rest, params =>
      if p.required && (alookup params p.name).isNone && p.default.isNone then
        some p.name
      else firstMissingRequired rest params

/-- The second loop of `validate_params`: scan the supplied argument names
in order and report the first one not among the declared parameter names. -/
def firstUnknown (declared : List String) : List (String × Value) → Option String
  | [] => Option.none
  | (k, _) :: rest =>
      if declared.contains k then firstUnknown declared rest else some k

/-- `MethodExecutor.validate_params(method_name, params)`: the
`(is_valid, error_message)` pair of the source, including its own
method-existence check. -/
def validateParams (methods : List (String × MethodMetadata)) (methodName : String)
    (params : List (String × Value)) : Bool × Option String :=
  match alookup methods methodName with
  | Option.none => (false, some ("Method '" ++ methodName ++ "' not found"))
  | some m =>
    match firstMissingRequired m.parameters params with
    | some pname => (false, some ("Required parameter '" ++ pname ++ "' is missing"))
    | Option.none =>
      match firstUnknown (m.parameters.map (fun p => p.name)) params with
      | some k => (false, some ("Unknown parameter '" ++ k ++ "'"))
      | Option.none => (true, Option.none)

/-- The per-parameter body of `MethodExecutor._prepare_params`, folded over
the declared parameters in order: a supplied value is type-converted (a
failure raising the `Parameter '{name}': {e}` message), an absent optional
parameter with a non-`None` default gets the default verbatim, an absent
optional parameter without a default is skipped, and an absent required
parameter falls through every branch and contributes nothing. -/
def prepareParamsGo (params : List (String × Value)) :
    List MethodParameter → Except String (List (String × Value))
  | [] => Except.ok []
  | p :: rest =>
      match alookup params p.name with
      | some v =>
          (match convertType v p.type with
           | Except.ok c =>
               (match prepareParamsGo params rest with
                | Except.ok tail => Except.ok ((p.name, c) :: tail)
                | Except.error e => Except.error e)
           | Except.error e =>
               Except.error ("Parameter '" ++ p.name ++ "': " ++ e))
      | Option.none =>
          if !p.required && !p.default.isNone then
            match prepareParamsGo params rest with
            | Except.ok tail => Except.ok ((p.name, p.default) :: tail)
            | Except.error e => Except.error e
          else prepareParamsGo params rest

/-- `MethodExecutor._prepare_params(method_name, params)` for an
already-looked-up method. -/
def prepareParams (m : MethodMetadata) (params : List (String × Value)) :
    Except String (List (String × Value)) :=
  prepareParamsGo params m.parameters

/-- Outcome of calling the target: a returned value or a raised exception
(`typeName` standing for `type(e).__name__`, `msg` for `str(e)`). -/
inductive CallOutcome where
  | ret (v : Value)
  | exc (typeName : String) (msg : String)

/-- A resolved Python callable: `run` is the call on keyword arguments, and
`duration` is the abstract wall-clock time the call blocks for (consumed by
the modelled `timeout_context`). -/
structure PyCallable where
  duration : List (String × Value) → Nat
  run : List (String × Value) → CallOutcome

/-- A module attribute, as `getattr` plus `callable()` see it. -/
inductive PyObject where
  | callable (f : PyCallable)
  | attr (v : Value)

/-- The import environment: `importlib.import_module` resolves a module
path to its symbol table, or raises `ImportError` when absent. -/
def PyEnv : Type := List (String × List (String × PyObject))

/-- The executor's `_method_cache`. -/
def Cache : Type := List (String × PyCallable)

/-- Outcome of `_load_method`: the callable, or the message of the raised
`MethodExecutorError`. -/
inductive LoadOutcome where
  | ok (f : PyCallable)
  | err (msg : String)

/-- `MethodExecutor._load_method(method_name)` for the metadata execute has
already looked up.  Returns the outcome, the updated cache, and how many
times the import/getattr machinery was entered (`0` on a cache hit; the
source returns from the cache before touching `importlib`).  The
`hasattr`/`callable` failures are raised inside the `try` and re-wrapped by
its generic `except Exception` clause, hence the `Failed to load method`
prefix on those messages. -/
def loadMethod (env : PyEnv) (m : MethodMetadata) (cache : Cache) (methodName : String) :
    LoadOutcome × Cache × Nat :=
  match alookup cache methodName with
  | some f => (LoadOutcome.ok f, cache, 0)
  | Option.none =>
    match alookup env m.module_path with
    | Option.none =>
        (LoadOutcome.err ("Failed to import module '" ++ m.module_path ++
          "': No module named '" ++ m.module_path ++ "'"), cache, 1)
    | some moduleSymbols =>
      match alookup moduleSymbols m.function_name with
      | Option.none =>
          (LoadOutcome.err ("Failed to load method '" ++ methodName ++
            "': Function '" ++ m.function_name ++ "' not found in module '" ++
            m.module_path ++ "'"), cache, 1)
      | some (PyObject.attr _) =>
          (LoadOutcome.err ("Failed to load method '" ++ methodName ++ "': '" ++
            m.function_name ++ "' in module '" ++ m.module_path ++
            "' is not callable"), cache, 1)
      | some (PyObject.callable f) =>
          (LoadOutcome.ok f, (methodName, f) :: cache, 1)

/-- What `execute` touched besides producing its result: the cache it
leaves behind, how often the import machinery ran, whether `_load_method`
was reached, and whether the target callable was actually called. -/
structure ExecTrace where
  cache : Cache
  machinery : Nat
  loadCalled : Bool
  invoked : Bool

/-- The `Executing` step of `MethodExecutor.execute` on the non-Windows
branch: the call runs inside `timeout_context(timeout_seconds)`.
`signal.alarm(n)` only arms for `n > 0`, and the armed alarm preempts a
call that blocks past the deadline, so the handler's `TimeoutError` is
raised exactly when `0 < timeout ∧ timeout < duration`; otherwise the call
finishes and a raised exception is caught by the generic `except` clause as
`Method execution failed: {type}: {message}`. -/
def runPhase (f : PyCallable) (prepared : List (String × Value)) (timeoutSeconds : Nat) :
    ExecutionResult :=
  if 0 < timeoutSeconds ∧ timeoutSeconds < f.duration prepared then
    { success := false,
      error := some ("Method execution timeout: Method execution exceeded timeout of " ++
        toString timeoutSeconds ++ " seconds"),
      execution_time := timeoutSeconds }
  else
    match f.run prepared with
    | CallOutcome.ret v =>
        { success := true, result := some v, execution_time := f.duration prepared }
    | CallOutcome.exc tn msg =>
        { success := false,
          error := some ("Method execution failed: " ++ tn ++ ": " ++ msg),
          execution_time := f.duration prepared }

/-- `MethodExecutor.execute(method_name, params, timeout)`: the full
pipeline of the source — existence check, `validate_params`,
`_prepare_params`, `_load_method`, then the timeout-bounded call — each
failure returning a structured `ExecutionResult` exactly as the
corresponding `return ExecutionResult(...)` in the source.  The `None`
fallback in the validation message mirrors the f-string printing
`error_msg` (which is never `None` on the invalid branch). -/
def execute (env : PyEnv) (methods : List (String × MethodMetadata)) (cache : Cache)
    (defaultTimeout : Nat) (methodName : String) (params : List (String × Value))
    (timeout : Option Nat) : ExecutionResult × ExecTrace :=
  match alookup methods methodName with
  | Option.none =>
      ({ success := false, error := some ("Method '" ++ methodName ++ "' not found") },
       ⟨cache, 0, false, false⟩)
  | some m =>
    match validateParams methods methodName params with
    | (false, msg) =>
        ({ success := false,
           error := some ("Parameter validation failed: " ++ msg.getD "None") },
         ⟨cache, 0, false, false⟩)
    | (true, _) =>
      match prepareParams m params with
      | Except.error e =>
          ({ success := false, error := some ("Parameter preparation failed: " ++ e) },
           ⟨cache, 0, false, false⟩)
      | Except.ok prepared =>
        match loadMethod env m cache methodName with
        | (LoadOutcome.err e, cache₂, mach) =>
            ({ success := false, error := some e }, ⟨cache₂, mach, true, false⟩)
        | (LoadOutcome.ok f, cache₂, mach) =>
            (runPhase f prepared (timeout.getD defaultTimeout),
             ⟨cache₂, mach, true, true⟩)

/-- `shared.models.MethodConfig`: a method declaration as the metadata
validator receives it. -/
structure MethodConfig where
  name : String
  description : String
  parameters : List MethodParameter
  return_type : String
  module_path : String
  function_name : String

/-- `shared.models.ValidationResult`.  `add_error` in the source appends to
`errors` and clears `valid`, so after a validation pass `valid` holds
exactly when no error was ever appended. -/
structure ValidationResult where
  valid : Bool
  errors : List String
  method_name : Option String

/-- Python's keyword list, as `keyword.iskeyword` consults it. -/
def pythonKeywords : List String :=
  ["False", "None", "True", "and", "as", "assert", "async", "await", "break",
   "class", "continue", "def", "del", "elif", "else", "except", "finally",
   "for", "from", "global", "if", "import", "in", "is", "lambda", "nonlocal",
   "not", "or", "pass", "raise", "return", "try", "while", "with", "yield"]

/-- `str.isidentifier()` over the ASCII range the repository uses: a
non-empty run starting with a letter or underscore, continuing with
letters, digits, or underscores. -/
def isPyIdentifierShaped (s : String) : Bool :=
  match s.toList with
  | [] => false
  | c :: rest =>
      (c.isAlpha || c == '_') && rest.all (fun d => d.isAlphanum || d == '_')

/-- `MetadataValidator._is_valid_identifier`: identifier-shaped and not a
Python keyword. -/
def isValidIdentifier (s : String) : Bool :=
  s != "" && isPyIdentifierShaped s && !pythonKeywords.contains s

/-- `MetadataValidator._is_valid_module_path`: dot-separated components,
each a valid identifier. -/
def isValidModulePath (path : String) : Bool :=
  path != "" && (splitDot path).all isValidIdentifier

/-- `MetadataValidator.VALID_TYPES`. -/
def VALID_TYPES : List String :=
  ["string", "str", "int", "integer", "float", "bool", "boolean", "dict",
   "dictionary", "list", "array", "tuple", "set", "None", "NoneType", "Any",
   "bytes", "bytearray"]

/-- `MetadataValidator._is_valid_type`. -/
def isValidType (t : String) : Bool :=
  t != "" && VALID_TYPES.contains t

/-- The `', '.join(sorted(self.VALID_TYPES))` fragment interpolated into
two of the validator's messages (Python's sort puts the capitalized names
first). -/
def sortedValidTypesJoined : String :=
  "Any, None, NoneType, array, bool, boolean, bytearray, bytes, dict, " ++
  "dictionary, float, int, integer, list, set, str, string, tuple"

/-- The method-name block of `validate_method` (empty check, then the
independent length and identifier checks). -/
def nameErrors (m : MethodConfig) : List String :=
  if m.name == "" then ["Method name is required and cannot be empty"]
  else
    (if m.name.length < 2 then
       ["Method name '" ++ m.name ++ "' is too short (minimum 2 characters)"]
     else if m.name.length > 100 then
       ["Method name '" ++ m.name ++ "' is too long (maximum 100 characters)"]
     else []) ++
    (if !isValidIdentifier m.name then
       ["Method name '" ++ m.name ++ "' is not a valid Python identifier. " ++
        "Must start with letter or underscore, contain only letters, " ++
        "digits, and underscores, and not be a Python keyword"]
     else [])

/-- The description block of `validate_method`. -/
def descriptionErrors (m : MethodConfig) : List String :=
  if m.description == "" then
    ["Method description is required and cannot be empty"]
  else if m.description.length > 1000 then
    ["Method description is too long (maximum 1000 characters, got " ++
     toString m.description.length ++ ")"]
  else []

/-- The module-path block of `validate_method`. -/
def modulePathErrors (m : MethodConfig) : List String :=
  if m.module_path == "" then
    ["Module path is required and cannot be empty"]
  else if !isValidModulePath m.module_path then
    ["Module path '" ++ m.module_path ++ "' is not valid. " ++
     "Must be a valid Python module path (e.g., 'package.module')"]
  else []

/-- The function-name block of `validate_method`. -/
def functionNameErrors (m : MethodConfig) : List String :=
  if m.function_name == "" then
    ["Function name is required and cannot be empty"]
  else if !isValidIdentifier m.function_name then
    ["Function name '" ++ m.function_name ++ "' is not a valid Python identifier"]
  else []

/-- The return-type block of `validate_method`. -/
def returnTypeErrors (m : MethodConfig) : List String :=
  if m.return_type == "" then
    ["Return type is required and cannot be empty"]
  else if !isValidType m.return_type then
    ["Return type '" ++ m.return_type ++ "' is not a recognized Python type. " ++
     "Valid types: " ++ sortedValidTypesJoined]
  else []

/-- The parameter loop of `validate_method`: walks the parameter list with
its index and the `param_names_seen` set, accumulating the name, type and
description errors of each parameter in order (the source adds a name to
the seen-set only on the non-empty branch). -/
def parameterErrorsGo : Nat → List String → List MethodParameter → List String
  | _, _, [] => []
  | idx, seen, p :: rest =>
      let nameErrs :=
        if p.name == "" then
          ["Parameter at index " ++ toString idx ++ " is missing required field 'name'"]
        else
          (if seen.contains p.name then
             ["Duplicate parameter name '" ++ p.name ++ "' found"]
           else []) ++
          (if !isValidIdentifier p.name then
             ["Parameter name '" ++ p.name ++ "' is not a valid Python identifier"]
           else [])
      let seen₂ := if p.name == "" then seen else p.name :: seen
      let label :=
        if p.name == "" then "at index " ++ toString idx else p.name
      let typeErrs :=
        if p.type == "" then
          ["Parameter '" ++ label ++ "' is missing required field 'type'"]
        else if !isValidType p.type then
          ["Parameter '" ++ p.name ++ "' has invalid type '" ++ p.type ++
           "'. Valid types: " ++ sortedValidTypesJoined]
        else []
      let descErrs :=
        if p.description == "" then
          ["Parameter '" ++ label ++ "' is missing required field 'description'"]
        else if p.description.length > 500 then
          ["Parameter '" ++ p.name ++ "' description is too long " ++
           "(maximum 500 characters, got " ++ toString p.description.length ++ ")"]
        else []
      nameErrs ++ typeErrs ++ descErrs ++ parameterErrorsGo (idx + 1) seen₂ rest

/-- `MetadataValidator.validate_method(method)`: every block runs
unconditionally and appends its errors via `add_error`, so the final error
list is the in-order concatenation of the blocks and `valid` holds exactly
when that list is empty. -/
def validateMethod (m : MethodConfig) : ValidationResult :=
  let errs :=
    nameErrors m ++ descriptionErrors m ++ modulePathErrors m ++
    functionNameErrors m ++ returnTypeErrors m ++
    parameterErrorsGo 0 [] m.parameters
  { valid := errs.isEmpty, errors := errs, method_name := some m.name }


/-! ### Helper lemmas about the embedded operations -/

theorem alookup_cons_self {α : Type} (k : String) (v : α) (rest : List (String × α)) :
    alookup ((k, v) :: rest) k = some v := by
  simp [alookup]

theorem alookup_append_absent {α : Type} (xs : List (String × α)) (k : String) (v : α)
    (h : alookup xs k = Option.none) : alookup (xs ++ [(k, v)]) k = some v := by
  induction xs with
  | nil => simp [alookup]
  | cons hd tl ih =>
      cases hd with
      | mk k₂ v₂ =>
          simp only [List.cons_append]
          unfold alookup at h ⊢
          by_cases hk : (k₂ == k) = true
          · rw [if_pos hk] at h; cases h
          · rw [if_neg hk] at h ⊢
            exact ih h

theorem alookup_append_ne {α : Type} (xs : List (String × α)) (k key : String) (v : α)
    (h : key ≠ k) : alookup (xs ++ [(k, v)]) key = alookup xs key := by
  have hne : ¬(k == key) = true := by
    simp only [beq_iff_eq]
    exact fun e => h e.symm
  induction xs with
  | nil =>
      simp only [List.nil_append]
      unfold alookup
      rw [if_neg hne]
      rfl
  | cons hd tl ih =>
      cases hd with
      | mk k₂ v₂ =>
          simp only [List.cons_append]
          unfold alookup
          split
          · rfl
          · exact ih

theorem contains_of_mem {l : List String} {a : String} (h : a ∈ l) :
    l.contains a = true := by
  induction l with
  | nil => cases h
  | cons hd tl ih =>
      rw [List.contains_cons]
      rcases List.mem_cons.mp h with h₁ | h₂
      · rw [h₁]
        simp
      · rw [ih h₂]
        simp

theorem firstMissingRequired_none_iff (ps : List MethodParameter)
    (params : List (String × Value)) :
    firstMissingRequired ps params = Option.none ↔
      ∀ p ∈ ps, ¬(p.required = true ∧ p.default.isNone = true ∧
        alookup params p.name = Option.none) := by
  induction ps with
  | nil =>
      constructor
      · intro _ p hp; cases hp
      · intro _; rfl
  | cons hd tl ih =>
      constructor
      · intro h p hp
        unfold firstMissingRequired at h
        by_cases hc : (hd.required && (alookup params hd.name).isNone && hd.default.isNone) = true
        · rw [if_pos hc] at h; cases h
        · rw [if_neg hc] at h
          rcases List.mem_cons.mp hp with h₁ | h₂
          · subst h₁
            rintro ⟨hr, hdf, hab⟩
            apply hc
            rw [hr, hdf, hab]
            rfl
          · exact (ih.mp h) p h₂
      · intro h
        unfold firstMissingRequired
        have hc : ¬(hd.required && (alookup params hd.name).isNone && hd.default.isNone) = true := by
          intro hc
          simp only [Bool.and_eq_true] at hc
          exact h hd (List.mem_cons_self hd tl)
            ⟨hc.1.1, hc.2, Option.isNone_iff_eq_none.mp hc.1.2⟩
        rw [if_neg hc]
        exact ih.mpr (fun p hp => h p (List.mem_cons_of_mem hd hp))

theorem firstMissingRequired_some_spec (ps : List MethodParameter)
    (params : List (String × Value)) (pn : String)
    (h : firstMissingRequired ps params = some pn) :
    ∃ p ∈ ps, p.name = pn ∧ p.required = true ∧ p.default.isNone = true ∧
      alookup params p.name = Option.none := by
  induction ps with
  | nil => cases h
  | cons hd tl ih =>
      unfold firstMissingRequired at h
      by_cases hc : (hd.required && (alookup params hd.name).isNone && hd.default.isNone) = true
      · rw [if_pos hc] at h
        cases h
        simp only [Bool.and_eq_true] at hc
        exact ⟨hd, List.mem_cons_self hd tl, rfl, hc.1.1, hc.2,
          Option.isNone_iff_eq_none.mp hc.1.2⟩
      · rw [if_neg hc] at h
        obtain ⟨p, hp, hrest⟩ := ih h
        exact ⟨p, List.mem_cons_of_mem hd hp, hrest⟩

theorem firstMissingRequired_isSome_of (ps : List MethodParameter)
    (params : List (String × Value)) (p : MethodParameter)
    (hp : p ∈ ps) (hr : p.required = true) (hd : p.default.isNone = true)
    (ha : alookup params p.name = Option.none) :
    ∃ pn, firstMissingRequired ps params = some pn := by
  cases hfm : firstMissingRequired ps params with
  | some pn => exact ⟨pn, rfl⟩
  | none =>
      exact absurd ⟨hr, hd, ha⟩ ((firstMissingRequired_none_iff ps params).mp hfm p hp)

theorem firstUnknown_none_of (declared : List String) (params : List (String × Value))
    (h : ∀ kv ∈ params, declared.contains kv.1 = true) :
    firstUnknown declared params = Option.none := by
  induction params with
  | nil => rfl
  | cons hd tl ih =>
      cases hd with
      | mk k v =>
          unfold firstUnknown
          rw [if_pos (h (k, v) (List.mem_cons_self _ _))]
          exact ih (fun kv hkv => h kv (List.mem_cons_of_mem _ hkv))

theorem firstUnknown_isSome_of (declared : List String) (params : List (String × Value))
    (k : String) (v : Value) (hmem : (k, v) ∈ params)
    (hk : declared.contains k = false) :
    ∃ u, firstUnknown declared params = some u := by
  induction params with
  | nil => cases hmem
  | cons hd tl ih =>
      cases hd with
      | mk k₂ v₂ =>
          unfold firstUnknown
          by_cases hc : declared.contains k₂ = true
          · rw [if_pos hc]
            rcases List.mem_cons.mp hmem with h₁ | h₂
            · exfalso
              have hkk : k = k₂ := congrArg Prod.fst h₁
              rw [hkk] at hk
              rw [hc] at hk
              cases hk
            · exact ih h₂
          · rw [if_neg hc]
            exact ⟨k₂, rfl⟩

theorem validateParams_missing (methods : List (String × MethodMetadata)) (name pn : String)
    (params : List (String × Value)) (m : MethodMetadata)
    (hm : alookup methods name = some m)
    (hmiss : firstMissingRequired m.parameters params = some pn) :
    validateParams methods name params =
      (false, some ("Required parameter '" ++ pn ++ "' is missing")) := by
  unfold validateParams
  rw [hm]
  simp only [hmiss]

theorem validateParams_unknown (methods : List (String × MethodMetadata)) (name u : String)
    (params : List (String × Value)) (m : MethodMetadata)
    (hm : alookup methods name = some m)
    (hmiss : firstMissingRequired m.parameters params = Option.none)
    (hunk : firstUnknown (m.parameters.map (fun p => p.name)) params = some u) :
    validateParams methods name params =
      (false, some ("Unknown parameter '" ++ u ++ "'")) := by
  unfold validateParams
  rw [hm]
  simp only [hmiss, hunk]

theorem validateParams_ok (methods : List (String × MethodMetadata)) (name : String)
    (params : List (String × Value)) (m : MethodMetadata)
    (hm : alookup methods name = some m)
    (hmiss : firstMissingRequired m.parameters params = Option.none)
    (hunk : firstUnknown (m.parameters.map (fun p => p.name)) params = Option.none) :
    validateParams methods name params = (true, Option.none) := by
  unfold validateParams
  rw [hm]
  simp only [hmiss, hunk]

theorem execute_validation_failed (env : PyEnv) (methods : List (String × MethodMetadata))
    (cache : Cache) (dt : Nat) (name : String) (params : List (String × Value))
    (tmo : Option Nat) (m : MethodMetadata) (e : String)
    (hm : alookup methods name = some m)
    (hval : validateParams methods name params = (false, some e)) :
    execute env methods cache dt name params tmo =
      ({ success := false, error := some ("Parameter validation failed: " ++ e) },
       ⟨cache, 0, false, false⟩) := by
  unfold execute
  rw [hm]
  simp only [hval]
  rfl

theorem execute_happy_path (env : PyEnv) (methods : List (String × MethodMetadata))
    (cache : Cache) (dt : Nat) (name : String) (params : List (String × Value))
    (tmo : Option Nat) (m : MethodMetadata) (prepared : List (String × Value))
    (f : PyCallable) (cache₂ : Cache) (mach : Nat)
    (hm : alookup methods name = some m)
    (hval : validateParams methods name params = (true, Option.none))
    (hprep : prepareParams m params = Except.ok prepared)
    (hload : loadMethod env m cache name = (LoadOutcome.ok f, cache₂, mach)) :
    execute env methods cache dt name params tmo =
      (runPhase f prepared (tmo.getD dt), ⟨cache₂, mach, true, true⟩) := by
  unfold execute
  rw [hm]
  simp only [hval, hprep, hload]

theorem typeMatches_not_none (v : Value) (t : String) (h : typeMatches v t = true) :
    v.isNone = false := by
  cases v <;> first | rfl | cases h

theorem convertType_of_matches (v : Value) (t : String)
    (h : typeMatches v (pyLower t) = true) : convertType v t = Except.ok v := by
  unfold convertType
  rw [if_pos h]

theorem firstMissingRequired_append (ps : List MethodParameter)
    (args : List (String × Value)) (pn : String) (d : Value)
    (hopt : ∀ q ∈ ps, q.name = pn → q.required = false) :
    firstMissingRequired ps (args ++ [(pn, d)]) = firstMissingRequired ps args := by
  induction ps with
  | nil => rfl
  | cons hd tl ih =>
      have htl := ih (fun q hq => hopt q (List.mem_cons_of_mem hd hq))
      unfold firstMissingRequired
      by_cases hn : hd.name = pn
      · have hr : hd.required = false := hopt hd (List.mem_cons_self hd tl) hn
        rw [hr]
        simp only [Bool.false_and, Bool.false_eq_true, if_false]
        exact htl
      · rw [alookup_append_ne args pn hd.name d hn, htl]

theorem firstUnknown_append_known (declared : List String)
    (args : List (String × Value)) (pn : String) (d : Value)
    (hk : declared.contains pn = true) :
    firstUnknown declared (args ++ [(pn, d)]) = firstUnknown declared args := by
  induction args with
  | nil =>
      simp only [List.nil_append]
      unfold firstUnknown
      rw [if_pos hk]
      rfl
  | cons hd tl ih =>
      cases hd with
      | mk k v =>
          simp only [List.cons_append]
          unfold firstUnknown
          split
          · exact ih
          · rfl

theorem prepareParamsGo_append (ps : List MethodParameter)
    (args : List (String × Value)) (pn : String) (d : Value)
    (habsent : alookup args pn = Option.none)
    (hsame : ∀ q ∈ ps, q.name = pn →
      q.required = false ∧ q.default = d ∧ typeMatches d (pyLower q.type) = true) :
    prepareParamsGo (args ++ [(pn, d)]) ps = prepareParamsGo args ps := by
  induction ps with
  | nil => rfl
  | cons hd tl ih =>
      have htl := ih (fun q hq => hsame q (List.mem_cons_of_mem hd hq))
      unfold prepareParamsGo
      by_cases hn : hd.name = pn
      · obtain ⟨hr, hdf, hmm⟩ := hsame hd (List.mem_cons_self hd tl) hn
        have hdnn : d.isNone = false := typeMatches_not_none d (pyLower hd.type) hmm
        rw [hn]
        rw [alookup_append_absent args pn d habsent, habsent]
        simp only [convertType_of_matches d hd.type hmm, hr, hdf, hdnn,
          Bool.not_false, Bool.and_self, if_true, htl]
      · rw [alookup_append_ne args pn hd.name d hn]
        simp only [htl]

theorem prepareParamsGo_not_added (ps : List MethodParameter)
    (args : List (String × Value)) (pn : String)
    (hskip : ∀ q ∈ ps, q.name = pn → (alookup args q.name = Option.none ∧ q.required = true)) :
    ∀ prepared, prepareParamsGo args ps = Except.ok prepared →
      alookup prepared pn = Option.none := by
  induction ps with
  | nil =>
      intro prepared h
      cases h
      rfl
  | cons hd tl ih =>
      intro prepared h
      have ihtl := ih (fun q hq => hskip q (List.mem_cons_of_mem hd hq))
      have hnbeq : (hd.name == pn) = true → hd.name = pn := by
        intro hb; exact beq_iff_eq.mp hb
      unfold prepareParamsGo at h
      by_cases hn : hd.name = pn
      · obtain ⟨habs, hreq⟩ := hskip hd (List.mem_cons_self hd tl) hn
        rw [habs] at h
        simp only [hreq, Bool.not_true, Bool.false_and, Bool.false_eq_true, if_false] at h
        exact ihtl prepared h
      · cases hlk : alookup args hd.name with
        | some v =>
            rw [hlk] at h
            simp only [] at h
            cases hcv : convertType v hd.type with
            | ok c =>
                rw [hcv] at h
                simp only [] at h
                cases hgo : prepareParamsGo args tl with
                | ok tailp =>
                    rw [hgo] at h
                    simp only [] at h
                    cases h
                    unfold alookup
                    rw [if_neg (fun hb => hn (hnbeq hb))]
                    exact ihtl tailp hgo
                | error e =>
                    rw [hgo] at h
                    simp only [] at h
                    cases h
            | error e =>
                rw [hcv] at h
                simp only [] at h
                cases h
        | none =>
            rw [hlk] at h
            simp only [] at h
            by_cases hob : (!hd.required && !hd.default.isNone) = true
            · rw [if_pos hob] at h
              cases hgo : prepareParamsGo args tl with
              | ok tailp =>
                  rw [hgo] at h
                  simp only [] at h
                  cases h
                  unfold alookup
                  rw [if_neg (fun hb => hn (hnbeq hb))]
                  exact ihtl tailp hgo
              | error e =>
                  rw [hgo] at h
                  simp only [] at h
                  cases h
            · rw [if_neg hob] at h
              exact ihtl prepared h

/-! ### Concrete registered methods used by the claim instances -/

/-- The target callable of the spec's concrete `add` scenario: returns
`a + b` on two integers. -/
def addTarget : PyCallable :=
  { duration := fun _ => 0,
    run := fun args =>
      match alookup args "a", alookup args "b" with
      | some (Value.int x), some (Value.int y) => CallOutcome.ret (Value.int (x + y))
      | _, _ => CallOutcome.exc "TypeError" "unsupported operand types" }

/-- Import environment holding the `add` callable. -/
def addEnv : PyEnv := [("calculator.operations", [("add", PyObject.callable addTarget)])]

/-- The spec's `add` declaration: two required integer parameters. -/
def addDecl : MethodMetadata :=
  { name := "add", description := "Add two integers",
    parameters :=
      [{ name := "a", type := "integer", description := "first addend" },
       { name := "b", type := "integer", description := "second addend" }],
    return_type := "int", module_path := "calculator.operations",
    function_name := "add" }

/-- Registry holding only `add`. -/
def addRegistry : List (String × MethodMetadata) := [("add", addDecl)]

/-- A target that returns `0` immediately. -/
def constTarget : PyCallable :=
  { duration := fun _ => 0, run := fun _ => CallOutcome.ret (Value.int 0) }

/-- A method whose single parameter is declared `required := true` yet
carries the non-`None` default `5` — the combination `validate_params`
waves through. -/
def requiredDefaultDecl : MethodMetadata :=
  { name := "job", description := "runs a job",
    parameters :=
      [{ name := "a", type := "integer", description := "input",
         required := true, default := Value.int 5 }],
    return_type := "int", module_path := "jobs", function_name := "run_job" }

/-- Import environment for `requiredDefaultDecl`. -/
def requiredDefaultEnv : PyEnv := [("jobs", [("run_job", PyObject.callable constTarget)])]

/-- Registry holding only `job`. -/
def requiredDefaultRegistry : List (String × MethodMetadata) := [("job", requiredDefaultDecl)]

/-- A target echoing back its `p` argument. -/
def echoTarget : PyCallable :=
  { duration := fun _ => 0,
    run := fun args =>
      CallOutcome.ret (match alookup args "p" with
        | some v => v
        | Option.none => Value.none) }

/-- An optional integer parameter whose default is the *string* `"7"` —
substituted verbatim when omitted, but coerced to `7` when supplied. -/
def stringDefaultDecl : MethodMetadata :=
  { name := "echo", description := "echoes p",
    parameters :=
      [{ name := "p", type := "integer", description := "value",
         required := false, default := Value.str "7" }],
    return_type := "int", module_path := "echoes", function_name := "echo_back" }

/-- Import environment for the echo methods. -/
def echoEnv : PyEnv := [("echoes", [("echo_back", PyObject.callable echoTarget)])]

/-- Registry holding only the string-default `echo`. -/
def stringDefaultRegistry : List (String × MethodMetadata) := [("echo", stringDefaultDecl)]

/-- Like `stringDefaultDecl` but with an integer default of the declared
kind. -/
def intDefaultDecl : MethodMetadata :=
  { name := "echo", description := "echoes p",
    parameters :=
      [{ name := "p", type := "integer", description := "value",
         required := false, default := Value.int 9 }],
    return_type := "int", module_path := "echoes", function_name := "echo_back" }

/-- Registry holding only the integer-default `echo`. -/
def intDefaultRegistry : List (String × MethodMetadata) := [("echo", intDefaultDecl)]

/-- A target that blocks for 5 abstract time units. -/
def blockingTarget : PyCallable :=
  { duration := fun _ => 5, run := fun _ => CallOutcome.ret (Value.int 0) }

/-- Declaration of the blocking method (no parameters). -/
def blockingDecl : MethodMetadata :=
  { name := "block", description := "blocks for a while", parameters := [],
    return_type := "int", module_path := "slow", function_name := "block_call" }

/-- Import environment for `block`. -/
def blockingEnv : PyEnv := [("slow", [("block_call", PyObject.callable blockingTarget)])]

/-- Registry holding only `block`. -/
def blockingRegistry : List (String × MethodMetadata) := [("block", blockingDecl)]

/-- A target that raises `ValueError("boom")`. -/
def raisingTarget : PyCallable :=
  { duration := fun _ => 0, run := fun _ => CallOutcome.exc "ValueError" "boom" }

/-- Declaration of the raising method (no parameters). -/
def raisingDecl : MethodMetadata :=
  { name := "boom", description := "always raises", parameters := [],
    return_type := "None", module_path := "faulty", function_name := "explode" }

/-- Import environment for `boom`. -/
def raisingEnv : PyEnv := [("faulty", [("explode", PyObject.callable raisingTarget)])]

/-- Registry holding only `boom`. -/
def raisingRegistry : List (String × MethodMetadata) := [("boom", raisingDecl)]

/-- A method for the implicit required-with-default behaviour: `a` is
required with default `5`, `b` is required with no default. -/
def taskDecl : MethodMetadata :=
  { name := "task", description := "runs a task",
    parameters :=
      [{ name := "a", type := "integer", description := "first",
         required := true, default := Value.int 5 },
       { name := "b", type := "integer", description := "second" }],
    return_type := "int", module_path := "tasks", function_name := "run_task" }

/-- Registry holding only `task`. -/
def taskRegistry : List (String × MethodMetadata) := [("task", taskDecl)]

/-- A declaration with five independent defects: name too short, empty
description, malformed module path, non-identifier function name, and an
unrecognized return type. -/
def fiveDefectConfig : MethodConfig :=
  { name := "x", description := "", parameters := [], return_type := "intg",
    module_path := "bad..path", function_name := "1f" }

/-- A declaration whose only defects are in its single parameter: missing
name, missing type, missing description. -/
def paramDefectConfig : MethodConfig :=
  { name := "ok_name", description := "described",
    parameters := [{ name := "", type := "", description := "" }],
    return_type := "int", module_path := "pkg.mod", function_name := "fn" }

/-- A declaration with no defects. -/
def cleanConfig : MethodConfig :=
  { name := "my_method", description := "does things",
    parameters := [{ name := "a", type := "int", description := "first" }],
    return_type := "int", module_path := "pkg.mod", function_name := "run_it" }

/-! ### Claim theorems -/

/-- C1 counterexample, exhibiting both defects of the claim at concrete
inputs.  First: the method `job` declares parameter `a` as required with
the non-null default `5`; invoking with an argument map omitting `a` does
**not** fail — `execute` returns success.  Second: the method `add`
declares `a` and `b` both required with null defaults; invoking with an
empty argument map omits both, yet the single result carries exactly one
missing-required-parameter error naming only `a` — not one error per
missing parameter reported together. -/
theorem c1_counterexample_required_default_and_single_error :
    ((execute requiredDefaultEnv requiredDefaultRegistry [] 30 "job" []
      Option.none).1.success = true) ∧
    ((execute addEnv addRegistry [] 30 "add" [] Option.none).1 =
      { success := false,
        error := some "Parameter validation failed: Required parameter 'a' is missing",
        execution_time := 0 }) :=
  ⟨rfl, rfl⟩

/-- C1 (amended): for every registered method and invocation omitting at
least one required parameter whose default is null, `execute` fails before
resolution or execution (no import-machinery touch, `_load_method` never
reached, callable never invoked) with a missing-required-parameter error
naming one such omitted parameter — the first in declaration order; only
that single parameter is reported, and required parameters with non-null
defaults are exempt. -/
theorem c1_missing_required_fails (env : PyEnv)
    (methods : List (String × MethodMetadata)) (cache : Cache) (dt : Nat)
    (name : String) (params : List (String × Value)) (tmo : Option Nat)
    (m : MethodMetadata)
    (hm : alookup methods name = some m)
    (hmiss : ∃ p ∈ m.parameters, p.required = true ∧ p.default.isNone = true ∧
      alookup params p.name = Option.none) :
    ∃ q ∈ m.parameters, q.required = true ∧ q.default.isNone = true ∧
      alookup params q.name = Option.none ∧
      execute env methods cache dt name params tmo =
        ({ success := false,
           error := some ("Parameter validation failed: Required parameter '" ++
             q.name ++ "' is missing") },
         ⟨cache, 0, false, false⟩) := by
  obtain ⟨p, hp, hr, hd, ha⟩ := hmiss
  obtain ⟨pn, hfm⟩ := firstMissingRequired_isSome_of m.parameters params p hp hr hd ha
  obtain ⟨q, hq, hqn, hqr, hqd, hqa⟩ :=
    firstMissingRequired_some_spec m.parameters params pn hfm
  refine ⟨q, hq, hqr, hqd, hqa, ?_⟩
  rw [hqn]
  exact execute_validation_failed env methods cache dt name params tmo m _ hm
    (validateParams_missing methods name pn params m hm hfm)

/-- Witness for C1 (amended): `add` invoked with only `a` supplied fails
at validation naming a missing required parameter, with no resolution or
execution. -/
theorem c1_missing_required_fails_witness :
    ∃ q ∈ addDecl.parameters, q.required = true ∧ q.default.isNone = true ∧
      alookup [("a", Value.int 5)] q.name = Option.none ∧
      execute addEnv addRegistry [] 30 "add" [("a", Value.int 5)] Option.none =
        ({ success := false,
           error := some ("Parameter validation failed: Required parameter '" ++
             q.name ++ "' is missing") },
         ⟨[], 0, false, false⟩) :=
  c1_missing_required_fails addEnv addRegistry [] 30 "add" [("a", Value.int 5)]
    Option.none addDecl rfl
    ⟨⟨"b", "integer", "second addend", true, Value.none⟩, by simp [addDecl],
      rfl, rfl, rfl⟩

/-- C2: whenever the pipeline reaches the target callable and the callable
raises, `execute` returns a structured failure result carrying the
underlying error's type name and message (never letting the exception
escape; `execute` itself is a total function of its inputs, so every path
returns a structured `ExecutionResult`). -/
theorem c2_callable_exception_reported (env : PyEnv)
    (methods : List (String × MethodMetadata)) (cache : Cache) (dt : Nat)
    (name : String) (params : List (String × Value)) (tmo : Option Nat)
    (m : MethodMetadata) (prepared : List (String × Value)) (f : PyCallable)
    (cache₂ : Cache) (mach : Nat) (tn msg : String)
    (hm : alookup methods name = some m)
    (hval : validateParams methods name params = (true, Option.none))
    (hprep : prepareParams m params = Except.ok prepared)
    (hload : loadMethod env m cache name = (LoadOutcome.ok f, cache₂, mach))
    (htime : ¬(0 < tmo.getD dt ∧ tmo.getD dt < f.duration prepared))
    (hrun : f.run prepared = CallOutcome.exc tn msg) :
    (execute env methods cache dt name params tmo).1 =
      { success := false,
        error := some ("Method execution failed: " ++ tn ++ ": " ++ msg),
        execution_time := f.duration prepared } := by
  rw [execute_happy_path env methods cache dt name params tmo m prepared f
    cache₂ mach hm hval hprep hload]
  unfold runPhase
  rw [if_neg htime, hrun]

/-- Witness for C2: the `boom` method's callable raises
`ValueError("boom")` and `execute` reports it as a structured failure. -/
theorem c2_callable_exception_reported_witness :
    (execute raisingEnv raisingRegistry [] 30 "boom" [] Option.none).1 =
      { success := false,
        error := some "Method execution failed: ValueError: boom",
        execution_time := 0 } :=
  c2_callable_exception_reported raisingEnv raisingRegistry [] 30 "boom" []
    Option.none raisingDecl [] raisingTarget [("boom", raisingTarget)] 1
    "ValueError" "boom" rfl rfl rfl rfl (by decide) rfl

/-- C3: every result `execute` can build populates exactly one of the
value and error fields — the value is present iff `success` is true and
the error message is present iff `success` is false. -/
theorem c3_result_error_exclusive (env : PyEnv)
    (methods : List (String × MethodMetadata)) (cache : Cache) (dt : Nat)
    (name : String) (params : List (String × Value)) (tmo : Option Nat) :
    ((execute env methods cache dt name params tmo).1.result.isSome =
      (execute env methods cache dt name params tmo).1.success) ∧
    ((execute env methods cache dt name params tmo).1.error.isSome =
      !(execute env methods cache dt name params tmo).1.success) := by
  unfold execute runPhase
  split
  · exact ⟨rfl, rfl⟩
  · split
    · exact ⟨rfl, rfl⟩
    · split
      · exact ⟨rfl, rfl⟩
      · split
        · exact ⟨rfl, rfl⟩
        · split
          · exact ⟨rfl, rfl⟩
          · split
            · exact ⟨rfl, rfl⟩
            · exact ⟨rfl, rfl⟩

/-- C4: the concrete `add` scenario — string arguments `"5"`/`"3"` are
coerced to integers and the call succeeds with value `8`; supplying the
undeclared argument `c` fails the whole call with an unknown-parameter
error; and in general any supplied argument name not among the declared
parameter names makes `execute` fail. -/
theorem c4_add_scenario_and_unknown_rejection :
    ((execute addEnv addRegistry [] 30 "add"
        [("a", Value.str "5"), ("b", Value.str "3")] Option.none).1 =
      { success := true, result := some (Value.int 8), execution_time := 0 }) ∧
    ((execute addEnv addRegistry [] 30 "add"
        [("a", Value.int 5), ("b", Value.int 3), ("c", Value.int 1)] Option.none).1 =
      { success := false,
        error := some "Parameter validation failed: Unknown parameter 'c'",
        execution_time := 0 }) ∧
    (∀ (env : PyEnv) (methods : List (String × MethodMetadata)) (cache : Cache)
        (dt : Nat) (name : String) (params : List (String × Value))
        (tmo : Option Nat) (m : MethodMetadata) (k : String) (v : Value),
      alookup methods name = some m → (k, v) ∈ params →
      (m.parameters.map (fun p => p.name)).contains k = false →
      (execute env methods cache dt name params tmo).1.success = false) := by
  refine ⟨rfl, rfl, ?_⟩
  intro env methods cache dt name params tmo m k v hm hmem hk
  cases hfm : firstMissingRequired m.parameters params with
  | some pn =>
      rw [execute_validation_failed env methods cache dt name params tmo m _ hm
        (validateParams_missing methods name pn params m hm hfm)]
  | none =>
      obtain ⟨u, hu⟩ := firstUnknown_isSome_of _ params k v hmem hk
      rw [execute_validation_failed env methods cache dt name params tmo m _ hm
        (validateParams_unknown methods name u params m hm hfm hu)]

/-- Witness for C4: instantiating the general unknown-parameter clause at
the concrete `add` call carrying the undeclared argument `c`. -/
theorem c4_add_scenario_witness :
    (execute addEnv addRegistry [] 30 "add"
      [("a", Value.int 5), ("b", Value.int 3), ("c", Value.int 1)]
      Option.none).1.success = false :=
  c4_add_scenario_and_unknown_rejection.2.2 addEnv addRegistry [] 30 "add"
    [("a", Value.int 5), ("b", Value.int 3), ("c", Value.int 1)] Option.none
    addDecl "c" (Value.int 1) rfl (by simp) rfl

/-- C5: `validate_method` accumulates every structural defect of a
declaration in one pass: a declaration with five independent defects (name
too short, empty description, malformed module path, non-identifier
function name, unrecognized return type) yields an invalid result with
exactly five errors; one with three independent parameter defects yields
exactly three; a defect-free declaration yields a valid result with zero
errors. -/
theorem c5_validator_accumulates_all_defects :
    ((validateMethod fiveDefectConfig).valid = false ∧
      (validateMethod fiveDefectConfig).errors.length = 5) ∧
    ((validateMethod paramDefectConfig).valid = false ∧
      (validateMethod paramDefectConfig).errors.length = 3) ∧
    ((validateMethod cleanConfig).valid = true ∧
      (validateMethod cleanConfig).errors.length = 0) :=
  ⟨⟨rfl, rfl⟩, ⟨rfl, rfl⟩, ⟨rfl, rfl⟩⟩

/-- C6 counterexample: for the `echo` method whose optional integer
parameter `p` defaults to the *string* `"7"`, omitting `p` hands the
callable the raw string (result `"7"`) while supplying `p = "7"` hands it
the coerced integer (result `7`) — the two invocations do not yield the
same execution result, refuting the claim for defaults not already of the
declared kind. -/
theorem c6_counterexample_default_not_coerced :
    (execute echoEnv stringDefaultRegistry [] 30 "echo" [] Option.none).1 ≠
    (execute echoEnv stringDefaultRegistry [] 30 "echo"
      [("p", Value.str "7")] Option.none).1 := by
  intro h
  have hr := congrArg ExecutionResult.result h
  rw [show (execute echoEnv stringDefaultRegistry [] 30 "echo" []
        Option.none).1.result = some (Value.str "7") from rfl,
      show (execute echoEnv stringDefaultRegistry [] 30 "echo"
        [("p", Value.str "7")] Option.none).1.result = some (Value.int 7) from rfl]
    at hr
  exact Value.noConfusion (Option.some.inj hr)

/-- C6 (amended): for every method with an optional parameter `p` whose
default value already has the declared kind (and every parameter sharing
`p`'s name likewise optional with that same default and kind), omitting
`p` yields exactly the same `execute` outcome — result and trace — as
supplying `p`'s default explicitly.  (Supplied values are coerced while
substituted defaults are not, so the restriction to kind-matching defaults
is what the counterexample forces.) -/
theorem c6_default_matching_kind_equals_explicit (env : PyEnv)
    (methods : List (String × MethodMetadata)) (cache : Cache) (dt : Nat)
    (name : String) (args : List (String × Value)) (tmo : Option Nat)
    (m : MethodMetadata) (p : MethodParameter)
    (hm : alookup methods name = some m)
    (hp : p ∈ m.parameters)
    (habsent : alookup args p.name = Option.none)
    (hsame : ∀ q ∈ m.parameters, q.name = p.name →
      q.required = false ∧ q.default = p.default ∧
      typeMatches p.default (pyLower q.type) = true) :
    execute env methods cache dt name args tmo =
    execute env methods cache dt name (args ++ [(p.name, p.default)]) tmo := by
  have hfm : firstMissingRequired m.parameters (args ++ [(p.name, p.default)]) =
      firstMissingRequired m.parameters args :=
    firstMissingRequired_append m.parameters args p.name p.default
      (fun q hq hqn => (hsame q hq hqn).1)
  have hcontains : (m.parameters.map (fun r => r.name)).contains p.name = true :=
    contains_of_mem (List.mem_map_of_mem _ hp)
  have hfu : firstUnknown (m.parameters.map (fun r => r.name))
      (args ++ [(p.name, p.default)]) =
      firstUnknown (m.parameters.map (fun r => r.name)) args :=
    firstUnknown_append_known _ args p.name p.default hcontains
  have hval : validateParams methods name (args ++ [(p.name, p.default)]) =
      validateParams methods name args := by
    unfold validateParams
    rw [hm]
    simp only [hfm, hfu]
  have hprep : prepareParamsGo (args ++ [(p.name, p.default)]) m.parameters =
      prepareParamsGo args m.parameters :=
    prepareParamsGo_append m.parameters args p.name p.default habsent
      (fun q hq hqn =>
        ⟨(hsame q hq hqn).1, (hsame q hq hqn).2.1, (hsame q hq hqn).2.2⟩)
  unfold execute
  rw [hm]
  simp only [hval, prepareParams, hprep]

/-- Witness for C6 (amended): the integer-default `echo` behaves the same
whether `p` is omitted or its default `9` is supplied explicitly. -/
theorem c6_default_matching_kind_witness :
    execute echoEnv intDefaultRegistry [] 30 "echo" [] Option.none =
    execute echoEnv intDefaultRegistry [] 30 "echo" [("p", Value.int 9)]
      Option.none :=
  c6_default_matching_kind_equals_explicit echoEnv intDefaultRegistry [] 30
    "echo" [] Option.none intDefaultDecl
    ⟨"p", "integer", "value", false, Value.int 9⟩ rfl (by simp [intDefaultDecl])
    rfl
    (by
      intro q hq hqn
      simp only [intDefaultDecl, List.mem_singleton] at hq
      subst hq
      exact ⟨rfl, rfl, rfl⟩)

/-- The `boolean` target on a string value always lands in
`_convert_type`'s string-boolean branch. -/
theorem convertType_str_boolean (s : String) :
    convertType (Value.str s) "boolean" = Except.ok (convertBool (Value.str s)) := rfl

/-- `convertBool` on a string, with its match unfolded. -/
theorem convertBool_str (s : String) :
    convertBool (Value.str s) =
      if trueStrings.contains (pyLower s) = true then Value.bool true
      else if falseStrings.contains (pyLower s) = true then Value.bool false
      else Value.bool (pyTruthy (Value.str s)) := rfl

/-- The recognized true-words and false-words are disjoint. -/
theorem not_true_of_false_string (s : String)
    (h : falseStrings.contains s = true) : trueStrings.contains s = false := by
  have hs : s = "false" ∨ s = "0" ∨ s = "no" := by
    simpa [falseStrings] using h
  rcases hs with h₁ | h₁ | h₁ <;> subst h₁ <;> rfl

/-- C7: string-to-kind coercion — `"42"` at kind integer yields `42`; a
string whose lower-casing is `true`/`1`/`yes` yields boolean true; one
whose lower-casing is `false`/`0`/`no` yields boolean false; any other
string at kind boolean falls through to Python truthiness, so exactly the
non-empty unrecognized strings coerce to true and the empty string to
false. -/
theorem c7_string_coercion :
    (convertType (Value.str "42") "integer" = Except.ok (Value.int 42)) ∧
    (∀ s : String, trueStrings.contains (pyLower s) = true →
      convertType (Value.str s) "boolean" = Except.ok (Value.bool true)) ∧
    (∀ s : String, falseStrings.contains (pyLower s) = true →
      convertType (Value.str s) "boolean" = Except.ok (Value.bool false)) ∧
    (∀ s : String, trueStrings.contains (pyLower s) = false →
      falseStrings.contains (pyLower s) = false →
      convertType (Value.str s) "boolean" = Except.ok (Value.bool (s != ""))) := by
  refine ⟨rfl, ?_, ?_, ?_⟩
  · intro s h
    rw [convertType_str_boolean, convertBool_str, if_pos h]
  · intro s h
    rw [convertType_str_boolean, convertBool_str,
      if_neg (fun hc => by
        rw [not_true_of_false_string (pyLower s) h] at hc
        cases hc),
      if_pos h]
  · intro s h₁ h₂
    rw [convertType_str_boolean, convertBool_str,
      if_neg (fun hc => by rw [h₁] at hc; cases hc),
      if_neg (fun hc => by rw [h₂] at hc; cases hc)]
    rfl

/-- Witness for C7: the boolean clauses at `"TRUE"`, `"No"`, `"maybe"`
and `""`. -/
theorem c7_string_coercion_witness :
    (convertType (Value.str "TRUE") "boolean" = Except.ok (Value.bool true)) ∧
    (convertType (Value.str "No") "boolean" = Except.ok (Value.bool false)) ∧
    (convertType (Value.str "maybe") "boolean" = Except.ok (Value.bool true)) ∧
    (convertType (Value.str "") "boolean" = Except.ok (Value.bool false)) :=
  ⟨c7_string_coercion.2.1 "TRUE" rfl, c7_string_coercion.2.2.1 "No" rfl,
   c7_string_coercion.2.2.2 "maybe" rfl rfl, c7_string_coercion.2.2.2 "" rfl rfl⟩

/-- C8: resolution is idempotent and memoized per method name — once
`_load_method` has resolved a callable (populating the cache), resolving
the same unmodified method against that cache returns the identical cached
handle, leaves the cache unchanged, and performs zero import/getattr
machinery touches. -/
theorem c8_resolution_memoized (env : PyEnv) (m : MethodMetadata)
    (cache : Cache) (name : String) (f : PyCallable) (cache₂ : Cache)
    (mach : Nat)
    (h : loadMethod env m cache name = (LoadOutcome.ok f, cache₂, mach)) :
    loadMethod env m cache₂ name = (LoadOutcome.ok f, cache₂, 0) := by
  unfold loadMethod at h ⊢
  cases hc : alookup cache name with
  | some g =>
      rw [hc] at h
      simp only [Prod.mk.injEq, LoadOutcome.ok.injEq] at h
      obtain ⟨h1, h2, h3⟩ := h
      subst h1
      subst h2
      rw [hc]
  | none =>
      rw [hc] at h
      simp only [] at h
      cases he : alookup env m.module_path with
      | none =>
          rw [he] at h
          simp at h
      | some syms =>
          rw [he] at h
          simp only [] at h
          cases hs : alookup syms m.function_name with
          | none =>
              rw [hs] at h
              simp at h
          | some obj =>
              rw [hs] at h
              try simp only [] at h
              cases obj with
              | attr v => simp at h
              | callable g =>
                  simp only [Prod.mk.injEq, LoadOutcome.ok.injEq] at h
                  obtain ⟨h1, h2, h3⟩ := h
                  subst h1
                  subst h2
                  rw [alookup_cons_self]

/-- Witness for C8: after the first resolution of `add` has populated the
cache, a second resolution returns the same handle from the cache with no
machinery touch. -/
theorem c8_resolution_memoized_witness :
    loadMethod addEnv addDecl [("add", addTarget)] "add" =
      (LoadOutcome.ok addTarget, [("add", addTarget)], 0) :=
  c8_resolution_memoized addEnv addDecl [] "add" addTarget
    [("add", addTarget)] 1 rfl

/-- C9: whenever the resolved callable blocks longer than the invocation's
positive timeout, `execute` returns a timeout failure naming the
configured duration — never a success.  (Real wall-clock bounds are
abstracted: in the embedding the armed alarm fires exactly at the
deadline, which is the `signal.alarm` behaviour of `timeout_context`.) -/
theorem c9_timeout_never_success (env : PyEnv)
    (methods : List (String × MethodMetadata)) (cache : Cache) (dt : Nat)
    (name : String) (params : List (String × Value)) (tmo : Option Nat)
    (m : MethodMetadata) (prepared : List (String × Value)) (f : PyCallable)
    (cache₂ : Cache) (mach : Nat)
    (hm : alookup methods name = some m)
    (hval : validateParams methods name params = (true, Option.none))
    (hprep : prepareParams m params = Except.ok prepared)
    (hload : loadMethod env m cache name = (LoadOutcome.ok f, cache₂, mach))
    (hpos : 0 < tmo.getD dt)
    (hblock : tmo.getD dt < f.duration prepared) :
    ((execute env methods cache dt name params tmo).1 =
      { success := false,
        error := some ("Method execution timeout: Method execution exceeded timeout of " ++
          toString (tmo.getD dt) ++ " seconds"),
        execution_time := tmo.getD dt }) ∧
    (execute env methods cache dt name params tmo).1.success = false := by
  rw [execute_happy_path env methods cache dt name params tmo m prepared f
    cache₂ mach hm hval hprep hload]
  unfold runPhase
  rw [if_pos ⟨hpos, hblock⟩]
  exact ⟨rfl, rfl⟩

/-- Witness for C9: the spec's scenario — a callable blocking 5 time units
invoked with timeout 1 yields the timeout failure, not success. -/
theorem c9_timeout_never_success_witness :
    ((execute blockingEnv blockingRegistry [] 30 "block" [] (some 1)).1 =
      { success := false,
        error := some "Method execution timeout: Method execution exceeded timeout of 1 seconds",
        execution_time := 1 }) ∧
    (execute blockingEnv blockingRegistry [] 30 "block" [] (some 1)).1.success = false :=
  c9_timeout_never_success blockingEnv blockingRegistry [] 30 "block" []
    (some 1) blockingDecl [] blockingTarget [("block", blockingTarget)] 1
    rfl rfl rfl rfl (by decide) (by decide)

/-- C10 (implicit behaviour): a parameter marked required whose default is
non-null passes validation when omitted — yet `_prepare_params` does not
substitute the default: the parameter is absent from the prepared argument
set handed to the target callable (which `execute` invokes on exactly that
prepared set). -/
theorem c10_required_with_default_skipped
    (methods : List (String × MethodMetadata)) (name : String)
    (args : List (String × Value)) (m : MethodMetadata) (p : MethodParameter)
    (hm : alookup methods name = some m)
    (hp : p ∈ m.parameters)
    (hreq : p.required = true)
    (hdefault : p.default.isNone = false)
    (habsent : alookup args p.name = Option.none)
    (hothers : ∀ q ∈ m.parameters, q.required = true → q.default.isNone = true →
      (alookup args q.name).isSome = true)
    (hknown : ∀ kv ∈ args, (m.parameters.map (fun r => r.name)).contains kv.1 = true)
    (hdup : ∀ q ∈ m.parameters, q.name = p.name → q.required = true) :
    validateParams methods name args = (true, Option.none) ∧
    ∀ prepared, prepareParams m args = Except.ok prepared →
      alookup prepared p.name = Option.none := by
  constructor
  · refine validateParams_ok methods name args m hm ?_ ?_
    · refine (firstMissingRequired_none_iff m.parameters args).mpr ?_
      intro q hq
      rintro ⟨hqr, hqd, hqa⟩
      have hx := hothers q hq hqr hqd
      rw [hqa] at hx
      cases hx
    · exact firstUnknown_none_of _ args hknown
  · intro prepared hpp
    refine prepareParamsGo_not_added m.parameters args p.name ?_ prepared hpp
    intro q hq hqn
    refine ⟨?_, hdup q hq hqn⟩
    rw [hqn]
    exact habsent

/-- Witness for C10: the `task` method (required `a` with default `5`,
required `b` without) invoked with only `b` passes validation and prepares
an argument set without `a`. -/
theorem c10_required_with_default_skipped_witness :
    validateParams taskRegistry "task" [("b", Value.int 1)] = (true, Option.none) ∧
    ∀ prepared, prepareParams taskDecl [("b", Value.int 1)] = Except.ok prepared →
      alookup prepared "a" = Option.none :=
  c10_required_with_default_skipped taskRegistry "task" [("b", Value.int 1)]
    taskDecl ⟨"a", "integer", "first", true, Value.int 5⟩ rfl
    (by simp [taskDecl]) rfl rfl rfl (by decide) (by decide) (by decide)
